import Mathlib

/-!
Shallow embedding of the Live Audio Share signaling server
(`src/unnamed/part_004`, the session-gated variant of `src/server.js`).

The server keeps four pieces of mutable state: `hostSocketId` (nullable),
`viewers` (a Map viewerId -> { createdAt }), `viewerStats` (a Map
viewerId -> latest quality payload), and `sessions` (a Map
sessionId -> { role, createdAt }).  Socket.IO event handlers mutate this
state and emit messages either to a single socket (`io.to(x).emit` /
`socket.emit`) or to everyone (`io.emit`).  We model JavaScript `Map`s as
association lists with insertion-order semantics, each handler as a pure
function from state to (state, emission list), and message delivery as a
filter over the set of live connection ids.
-/

namespace LiveAudioShare

/-- JS `Map.set`: update the value in place if the key is present
(insertion order preserved), otherwise append a fresh entry. -/
def mapSet {α : Type} (m : List (String × α)) (k : String) (v : α) :
    List (String × α) :=
  if m.any (fun p => p.1 = k) then
    m.map (fun p => if p.1 = k then (k, v) else p)
  else
    m ++ [(k, v)]

/-- JS `Map.has`. -/
def mapHas {α : Type} (m : List (String × α)) (k : String) : Bool :=
  m.any (fun p => p.1 = k)

/-- JS `Map.delete`. -/
def mapDelete {α : Type} (m : List (String × α)) (k : String) :
    List (String × α) :=
  m.filter (fun p => ¬ p.1 = k)

/-- JS `Map.get`, `undefined` as `none`. -/
def mapGet {α : Type} (m : List (String × α)) (k : String) : Option α :=
  (m.find? (fun p => p.1 = k)).map (fun p => p.2)

/-- JS `[...m.keys()]` in insertion order. -/
def mapKeys {α : Type} (m : List (String × α)) : List String :=
  m.map (fun p => p.1)

/-- A session record: `{ role: 'host' | 'listener', createdAt }`. -/
structure SessionRec where
  role : String
  createdAt : Nat
deriving DecidableEq, Repr

/-- The messages the server emits, one constructor per socket event name,
with the payload fields the code attaches. -/
inductive Msg where
  | hostConfirmed : Msg
  | hostStreaming : Msg
  | hostStopped : Msg
  | hostLeft : Msg
  | noHost : Msg
  | disconnectRequest : Msg
  | viewerJoined (viewerId : String) : Msg
  | viewerLeft (viewerId : String) : Msg
  | webrtcOffer (sdp : String) (hostId : String) : Msg
  | webrtcAnswer (sdp : String) (viewerId : String) : Msg
  | webrtcIceCandidate (candidate : String) (fromId : String) : Msg
  | listenerStats (viewerId : String) (payload : String) : Msg
  | stats (viewerCount : Nat) (hostPresent : Bool)
      (viewerIds : List String) : Msg
deriving DecidableEq, Repr

/-- An emission: `io.to(target).emit(msg)` / `socket.emit(msg)` is
`toSocket`, a global `io.emit(msg)` is `broadcast`. -/
inductive Emit where
  | toSocket (target : String) (msg : Msg) : Emit
  | broadcast (msg : Msg) : Emit
deriving DecidableEq, Repr

/-- The server state: live transport connections plus the four mutable
globals of the source file. -/
structure ServerState where
  connected : List String
  hostSocketId : Option String
  viewers : List (String × Nat)
  viewerStats : List (String × (String × Nat))
  sessions : List (String × SessionRec)
deriving DecidableEq, Repr

/-- `broadcastStats()`: `io.emit('stats', { viewerCount: viewers.size,
hostPresent: !!hostSocketId, viewerIds: [...viewers.keys()] })`. -/
def broadcastStats (s : ServerState) : Emit :=
  Emit.broadcast
    (Msg.stats s.viewers.length s.hostSocketId.isSome (mapKeys s.viewers))

/-- The inbound events a socket with id `sid` can fire. -/
inductive Event where
  | connect (sid : String) : Event
  | registerHost (sid : String) : Event
  | announceStreaming (sid : String) : Event
  | hostStoppedStreaming (sid : String) : Event
  | viewerJoin (sid : String) : Event
  | webrtcOffer (sid : String) (viewerId : String) (sdp : String) : Event
  | webrtcAnswer (sid : String) (hostId : String) (sdp : String) : Event
  | webrtcIceCandidate (sid : String) (targetId : String)
      (candidate : String) : Event
  | listenerStats (sid : String) (payload : String) : Event
  | disconnectViewer (sid : String) (viewerId : String) : Event
  | disconnect (sid : String) : Event
deriving DecidableEq, Repr

/-- `socket.on('register-host', ...)`: unconditionally take the host slot,
confirm to the caller, broadcast stats (the replaced host is only logged). -/
def handleRegisterHost (s : ServerState) (sid : String) :
    ServerState × List Emit :=
  let s2 := { s with hostSocketId := some sid }
  (s2, [Emit.toSocket sid Msg.hostConfirmed, broadcastStats s2])

/-- `socket.on('announce-streaming', ...)`: a no-op unless the sender is
the current host; otherwise one `viewer-joined` per viewer is emitted TO
THE HOST (`io.to(hostSocketId)`) and `host-streaming` is broadcast. -/
def handleAnnounceStreaming (s : ServerState) (sid : String) :
    ServerState × List Emit :=
  if s.hostSocketId = some sid then
    (s, (mapKeys s.viewers).map
          (fun vid => Emit.toSocket sid (Msg.viewerJoined vid)) ++
        [Emit.broadcast Msg.hostStreaming])
  else
    (s, [])

/-- `socket.on('host-stopped-streaming', ...)`: a no-op unless the sender
is the current host; otherwise `host-stopped` is emitted to every viewer. -/
def handleHostStoppedStreaming (s : ServerState) (sid : String) :
    ServerState × List Emit :=
  if s.hostSocketId = some sid then
    (s, (mapKeys s.viewers).map (fun vid => Emit.toSocket vid Msg.hostStopped))
  else
    (s, [])

/-- `socket.on('viewer-join', ...)`: `no-host` to the caller when the
slot is empty, otherwise record the viewer with the current timestamp,
notify the host, broadcast stats. -/
def handleViewerJoin (now : Nat) (s : ServerState) (sid : String) :
    ServerState × List Emit :=
  match s.hostSocketId with
  | none => (s, [Emit.toSocket sid Msg.noHost])
  | some h =>
      let s2 := { s with viewers := mapSet s.viewers sid now }
      (s2, [Emit.toSocket h (Msg.viewerJoined sid), broadcastStats s2])

/-- `socket.on('webrtc-offer', ...)`: forward `{ sdp, hostId: socket.id }`
to `viewerId`, no checks. -/
def handleWebrtcOffer (s : ServerState) (sid viewerId sdp : String) :
    ServerState × List Emit :=
  (s, [Emit.toSocket viewerId (Msg.webrtcOffer sdp sid)])

/-- `socket.on('webrtc-answer', ...)`: forward `{ sdp, viewerId: socket.id }`
to `hostId`, no checks. -/
def handleWebrtcAnswer (s : ServerState) (sid hostId sdp : String) :
    ServerState × List Emit :=
  (s, [Emit.toSocket hostId (Msg.webrtcAnswer sdp sid)])

/-- `socket.on('webrtc-ice-candidate', ...)`: forward
`{ candidate, from: socket.id }` to `targetId` if `targetId` is truthy
(the empty string is JS-falsy). -/
def handleWebrtcIceCandidate (s : ServerState)
    (sid targetId candidate : String) : ServerState × List Emit :=
  if targetId = "" then (s, [])
  else (s, [Emit.toSocket targetId (Msg.webrtcIceCandidate candidate sid)])

/-- `socket.on('listener-stats', ...)`: dropped when no host; otherwise
store the latest payload with a timestamp and forward it to the host
tagged with the reporting viewer id. -/
def handleListenerStats (now : Nat) (s : ServerState)
    (sid payload : String) : ServerState × List Emit :=
  match s.hostSocketId with
  | none => (s, [])
  | some h =>
      let s2 := { s with viewerStats := mapSet s.viewerStats sid (payload, now) }
      (s2, [Emit.toSocket h (Msg.listenerStats sid payload)])

/-- `socket.on('disconnect-viewer', ...)`: if `viewerId` is a tracked
viewer, ask it to disconnect itself; no state change either way. -/
def handleDisconnectViewer (s : ServerState) (viewerId : String) :
    ServerState × List Emit :=
  if mapHas s.viewers viewerId then
    (s, [Emit.toSocket viewerId Msg.disconnectRequest])
  else
    (s, [])

/-- `socket.on('disconnect', ...)` in `part_004`: host branch clears the
slot, sends `host-left` to every viewer and wipes both viewer maps;
viewer branch removes the viewer and notifies the host if present; the
final `broadcastStats()` sits AFTER the if/else and therefore fires on
every disconnect, tracked or not.  The transport also drops `sid` from
the live-connection set. -/
def handleDisconnect (s : ServerState) (sid : String) :
    ServerState × List Emit :=
  let conn := s.connected.filter (fun c => ¬ c = sid)
  if s.hostSocketId = some sid then
    let s2 := { s with connected := conn, hostSocketId := none,
                       viewers := [], viewerStats := [] }
    (s2, (mapKeys s.viewers).map (fun vid => Emit.toSocket vid Msg.hostLeft) ++
         [broadcastStats s2])
  else if mapHas s.viewers sid then
    let s2 := { s with connected := conn,
                       viewers := mapDelete s.viewers sid,
                       viewerStats := mapDelete s.viewerStats sid }
    (s2, (match s.hostSocketId with
          | some h => [Emit.toSocket h (Msg.viewerLeft sid)]
          | none => []) ++
         [broadcastStats s2])
  else
    let s2 := { s with connected := conn }
    (s2, [broadcastStats s2])

/-- One dispatcher step: the event handler run at time `now`. -/
def step (now : Nat) (s : ServerState) : Event → ServerState × List Emit
  | Event.connect sid => ({ s with connected := s.connected ++ [sid] }, [])
  | Event.registerHost sid => handleRegisterHost s sid
  | Event.announceStreaming sid => handleAnnounceStreaming s sid
  | Event.hostStoppedStreaming sid => handleHostStoppedStreaming s sid
  | Event.viewerJoin sid => handleViewerJoin now s sid
  | Event.webrtcOffer sid viewerId sdp => handleWebrtcOffer s sid viewerId sdp
  | Event.webrtcAnswer sid hostId sdp => handleWebrtcAnswer s sid hostId sdp
  | Event.webrtcIceCandidate sid targetId candidate =>
      handleWebrtcIceCandidate s sid targetId candidate
  | Event.listenerStats sid payload => handleListenerStats now s sid payload
  | Event.disconnectViewer _ viewerId => handleDisconnectViewer s viewerId
  | Event.disconnect sid => handleDisconnect s sid

/-- A targeted emission reaches its target only while that target is a
live connection; a broadcast reaches every live connection. -/
def deliveredTo (conn : List String) (emits : List Emit) (c : String) :
    List Msg :=
  emits.filterMap (fun e =>
    match e with
    | Emit.toSocket t m => if t = c ∧ c ∈ conn then some m else none
    | Emit.broadcast m => if c ∈ conn then some m else none)

/-- The socket id an event originates from. -/
def Event.src : Event → String
  | Event.connect sid => sid
  | Event.registerHost sid => sid
  | Event.announceStreaming sid => sid
  | Event.hostStoppedStreaming sid => sid
  | Event.viewerJoin sid => sid
  | Event.webrtcOffer sid _ _ => sid
  | Event.webrtcAnswer sid _ _ => sid
  | Event.webrtcIceCandidate sid _ _ => sid
  | Event.listenerStats sid _ => sid
  | Event.disconnectViewer sid _ => sid
  | Event.disconnect sid => sid

/-- Server start: no connections, empty registry. -/
def initState : ServerState :=
  { connected := [], hostSocketId := none, viewers := [],
    viewerStats := [], sessions := [] }

/-- An event the transport can actually deliver: a fresh id connects,
every other event comes from a currently connected socket. -/
def EventOk (s : ServerState) : Event → Prop
  | Event.connect sid => sid ∉ s.connected
  | e => e.src ∈ s.connected

instance (s : ServerState) (e : Event) : Decidable (EventOk s e) := by
  cases e <;> simp only [EventOk] <;> infer_instance

/-- The states reachable from server start by valid events. -/
inductive Reach : ServerState → Prop where
  | init : Reach initState
  | next (now : Nat) (e : Event) (s : ServerState) :
      Reach s → EventOk s e → Reach (step now s e).1

/-! ## HTTP access gate (`requireHostAccess`) and session sweep -/

/-- The parts of an Express request the gate inspects. -/
structure HttpReq where
  ip : String
  hostname : String
  querySession : Option String
  headerSession : Option String
deriving DecidableEq, Repr

/-- `isLocalhost(req)` from the source: three loopback spellings of
`req.ip`, or `req.hostname === 'localhost'`. -/
def isLocalhost (r : HttpReq) : Bool :=
  r.ip = "127.0.0.1" || r.ip = "::1" || r.ip = "::ffff:127.0.0.1" ||
    r.hostname = "localhost"

/-- JS `a || b` on possibly-absent strings (the empty string is falsy). -/
def jsOr (a b : Option String) : Option String :=
  match a with
  | some v => if v = "" then b else some v
  | none => b

/-- `req.query.session || req.headers['x-session-id']`. -/
def reqSessionId (r : HttpReq) : Option String :=
  jsOr r.querySession r.headerSession

/-- Outcome of a request for the host control page. -/
inductive HostPage where
  | serve : HostPage
  | redirectListen : HostPage
deriving DecidableEq, Repr

/-- `requireHostAccess`: localhost passes; otherwise a truthy session id
whose record has `role === 'host'` passes; everything else is redirected
to `/listen`.  Note the gate never looks at `createdAt`. -/
def requireHostAccess (r : HttpReq)
    (sessions : List (String × SessionRec)) : HostPage :=
  if isLocalhost r then HostPage.serve
  else
    match reqSessionId r with
    | some sid =>
        if sid = "" then HostPage.redirectListen
        else
          match mapGet sessions sid with
          | some sr =>
              if sr.role = "host" then HostPage.serve
              else HostPage.redirectListen
          | none => HostPage.redirectListen
    | none => HostPage.redirectListen

/-- `SESSION_MAX_AGE = 24 * 60 * 60 * 1000`. -/
def SESSION_MAX_AGE : Nat := 24 * 60 * 60 * 1000

/-- `SESSION_CLEANUP_INTERVAL = 5 * 60 * 1000`. -/
def SESSION_CLEANUP_INTERVAL : Nat := 5 * 60 * 1000

/-- The `setInterval` sweep body: delete every session with
`now - createdAt > SESSION_MAX_AGE`. -/
def sweepSessions (now : Nat)
    (sessions : List (String × SessionRec)) : List (String × SessionRec) :=
  sessions.filter (fun p => ¬ now - p.2.createdAt > SESSION_MAX_AGE)


/-! ## Helper lemmas about the Map model -/

theorem mapHas_iff {α : Type} (m : List (String × α)) (k : String) :
    mapHas m k = true ↔ k ∈ mapKeys m := by
  simp [mapHas, mapKeys, List.any_eq_true, List.mem_map]

theorem mem_mapKeys_mapSet {α : Type} (m : List (String × α))
    (k x : String) (v : α) :
    x ∈ mapKeys (mapSet m k v) → x ∈ mapKeys m ∨ x = k := by
  unfold mapSet
  split
  · intro hx
    left
    unfold mapKeys at hx ⊢
    simp only [List.map_map, List.mem_map, Function.comp] at hx
    rcases hx with ⟨p, hp, he⟩
    by_cases hpk : p.1 = k
    · simp only [hpk, if_pos] at he
      exact List.mem_map.2 ⟨p, hp, hpk.trans he⟩
    · simp only [hpk, if_neg, ite_false] at he
      exact List.mem_map.2 ⟨p, hp, he⟩
  · intro hx
    unfold mapKeys at hx ⊢
    simp only [List.map_append, List.mem_append, List.map_cons,
      List.map_nil, List.mem_singleton] at hx
    rcases hx with hx | hx
    · exact Or.inl hx
    · exact Or.inr hx

theorem mem_mapKeys_mapDelete {α : Type} (m : List (String × α))
    (k x : String) :
    x ∈ mapKeys (mapDelete m k) → x ∈ mapKeys m ∧ ¬ x = k := by
  unfold mapDelete mapKeys
  intro hx
  rcases List.mem_map.1 hx with ⟨p, hp, he⟩
  rw [List.mem_filter] at hp
  refine ⟨List.mem_map.2 ⟨p, hp.1, he⟩, ?_⟩
  have h2 := hp.2
  simp only [decide_not, Bool.not_eq_true', decide_eq_false_iff_not] at h2
  rw [← he]
  exact h2

theorem mapHas_false_not_mem {α : Type} (m : List (String × α))
    (k : String) (h : ¬ mapHas m k = true) : k ∉ mapKeys m := by
  intro hk
  exact h ((mapHas_iff m k).2 hk)

/-! ## Handler frame lemmas -/

theorem handleAnnounceStreaming_fst (s : ServerState) (sid : String) :
    (handleAnnounceStreaming s sid).1 = s := by
  unfold handleAnnounceStreaming
  split <;> rfl

theorem handleHostStoppedStreaming_fst (s : ServerState) (sid : String) :
    (handleHostStoppedStreaming s sid).1 = s := by
  unfold handleHostStoppedStreaming
  split <;> rfl

theorem handleWebrtcIceCandidate_fst (s : ServerState)
    (sid targetId candidate : String) :
    (handleWebrtcIceCandidate s sid targetId candidate).1 = s := by
  unfold handleWebrtcIceCandidate
  split <;> rfl

theorem handleDisconnectViewer_fst (s : ServerState) (viewerId : String) :
    (handleDisconnectViewer s viewerId).1 = s := by
  unfold handleDisconnectViewer
  split <;> rfl

theorem handleViewerJoin_connected (now : Nat) (s : ServerState)
    (sid : String) : (handleViewerJoin now s sid).1.connected = s.connected := by
  unfold handleViewerJoin
  cases s.hostSocketId <;> rfl

theorem handleViewerJoin_host (now : Nat) (s : ServerState) (sid : String) :
    (handleViewerJoin now s sid).1.hostSocketId = s.hostSocketId := by
  unfold handleViewerJoin
  cases hs : s.hostSocketId <;> simp [hs]

theorem handleListenerStats_connected (now : Nat) (s : ServerState)
    (sid payload : String) :
    (handleListenerStats now s sid payload).1.connected = s.connected := by
  unfold handleListenerStats
  cases s.hostSocketId <;> rfl

theorem handleListenerStats_viewers (now : Nat) (s : ServerState)
    (sid payload : String) :
    (handleListenerStats now s sid payload).1.viewers = s.viewers := by
  unfold handleListenerStats
  cases s.hostSocketId <;> rfl

theorem handleListenerStats_host (now : Nat) (s : ServerState)
    (sid payload : String) :
    (handleListenerStats now s sid payload).1.hostSocketId = s.hostSocketId := by
  unfold handleListenerStats
  cases hs : s.hostSocketId <;> simp [hs]

/-! ## Reachability invariants -/

/-- Every tracked viewer id is a live connection. -/
theorem viewers_subset_connected (s : ServerState) (h : Reach s) :
    ∀ v ∈ mapKeys s.viewers, v ∈ s.connected := by
  induction h with
  | init => intro v hv; simp [initState, mapKeys] at hv
  | next now e s hr hok ih =>
      cases e with
      | connect sid =>
          intro v hv
          simp only [step] at hv ⊢
          exact List.mem_append_left _ (ih v hv)
      | registerHost sid =>
          intro v hv
          simp only [step, handleRegisterHost] at hv ⊢
          exact ih v hv
      | announceStreaming sid =>
          intro v hv
          simp only [step, handleAnnounceStreaming_fst] at hv ⊢
          exact ih v hv
      | hostStoppedStreaming sid =>
          intro v hv
          simp only [step, handleHostStoppedStreaming_fst] at hv ⊢
          exact ih v hv
      | viewerJoin sid =>
          intro v hv
          simp only [EventOk, Event.src] at hok
          simp only [step] at hv ⊢
          rw [handleViewerJoin_connected]
          unfold handleViewerJoin at hv
          cases hs : s.hostSocketId with
          | none => rw [hs] at hv; exact ih v hv
          | some h2 =>
              rw [hs] at hv
              simp only at hv
              rcases mem_mapKeys_mapSet _ _ _ _ hv with hv | hv
              · exact ih v hv
              · subst hv; exact hok
      | webrtcOffer sid viewerId sdp =>
          intro v hv
          simp only [step, handleWebrtcOffer] at hv ⊢
          exact ih v hv
      | webrtcAnswer sid hostId sdp =>
          intro v hv
          simp only [step, handleWebrtcAnswer] at hv ⊢
          exact ih v hv
      | webrtcIceCandidate sid targetId candidate =>
          intro v hv
          simp only [step, handleWebrtcIceCandidate_fst] at hv ⊢
          exact ih v hv
      | listenerStats sid payload =>
          intro v hv
          simp only [step, handleListenerStats_viewers] at hv
          simp only [step, handleListenerStats_connected]
          exact ih v hv
      | disconnectViewer sid viewerId =>
          intro v hv
          simp only [step, handleDisconnectViewer_fst] at hv ⊢
          exact ih v hv
      | disconnect sid =>
          intro v hv
          simp only [step] at hv ⊢
          unfold handleDisconnect at hv ⊢
          by_cases h1 : s.hostSocketId = some sid
          · rw [if_pos h1] at hv
            simp [mapKeys] at hv
          · rw [if_neg h1] at hv ⊢
            by_cases h2 : mapHas s.viewers sid = true
            · rw [if_pos h2] at hv ⊢
              simp only at hv ⊢
              rcases mem_mapKeys_mapDelete _ _ _ hv with ⟨hv1, hv2⟩
              rw [List.mem_filter]
              exact ⟨ih v hv1, by simpa using hv2⟩
            · rw [if_neg h2] at hv ⊢
              simp only at hv ⊢
              rw [List.mem_filter]
              refine ⟨ih v hv, ?_⟩
              have hvs : ¬ v = sid := by
                intro hvs
                subst hvs
                exact mapHas_false_not_mem _ _ h2 hv
              simpa using hvs

/-- The registered host, when present, is a live connection. -/
theorem host_mem_connected (s : ServerState) (h : Reach s) :
    ∀ hid : String, s.hostSocketId = some hid → hid ∈ s.connected := by
  induction h with
  | init => intro hid hh; simp [initState] at hh
  | next now e s hr hok ih =>
      cases e with
      | connect sid =>
          intro hid hh
          simp only [step] at hh ⊢
          exact List.mem_append_left _ (ih hid hh)
      | registerHost sid =>
          intro hid hh
          simp only [EventOk, Event.src] at hok
          simp only [step, handleRegisterHost] at hh ⊢
          rw [Option.some_inj] at hh
          subst hh
          exact hok
      | announceStreaming sid =>
          intro hid hh
          simp only [step, handleAnnounceStreaming_fst] at hh ⊢
          exact ih hid hh
      | hostStoppedStreaming sid =>
          intro hid hh
          simp only [step, handleHostStoppedStreaming_fst] at hh ⊢
          exact ih hid hh
      | viewerJoin sid =>
          intro hid hh
          simp only [step, handleViewerJoin_host] at hh
          simp only [step, handleViewerJoin_connected]
          exact ih hid hh
      | webrtcOffer sid viewerId sdp =>
          intro hid hh
          simp only [step, handleWebrtcOffer] at hh ⊢
          exact ih hid hh
      | webrtcAnswer sid hostId sdp =>
          intro hid hh
          simp only [step, handleWebrtcAnswer] at hh ⊢
          exact ih hid hh
      | webrtcIceCandidate sid targetId candidate =>
          intro hid hh
          simp only [step, handleWebrtcIceCandidate_fst] at hh ⊢
          exact ih hid hh
      | listenerStats sid payload =>
          intro hid hh
          simp only [step, handleListenerStats_host] at hh
          simp only [step, handleListenerStats_connected]
          exact ih hid hh
      | disconnectViewer sid viewerId =>
          intro hid hh
          simp only [step, handleDisconnectViewer_fst] at hh ⊢
          exact ih hid hh
      | disconnect sid =>
          intro hid hh
          simp only [step] at hh ⊢
          unfold handleDisconnect at hh ⊢
          by_cases h1 : s.hostSocketId = some sid
          · rw [if_pos h1] at hh
            simp at hh
          · rw [if_neg h1] at hh ⊢
            by_cases h2 : mapHas s.viewers sid = true
            · rw [if_pos h2] at hh ⊢
              simp only at hh ⊢
              rw [List.mem_filter]
              refine ⟨ih hid hh, ?_⟩
              have hne : ¬ hid = sid := by
                intro he; subst he; exact h1 hh
              simpa using hne
            · rw [if_neg h2] at hh ⊢
              simp only at hh ⊢
              rw [List.mem_filter]
              refine ⟨ih hid hh, ?_⟩
              have hne : ¬ hid = sid := by
                intro he; subst he; exact h1 hh
              simpa using hne

theorem mapSet_of_not_has {α : Type} (m : List (String × α)) (k : String)
    (v : α) (h : mapHas m k = false) : mapSet m k v = m ++ [(k, v)] := by
  have h2 : (m.any fun p => p.1 = k) = false := h
  unfold mapSet
  rw [h2]
  simp

theorem mapHas_mapDelete_self {α : Type} (m : List (String × α))
    (k : String) : mapHas (mapDelete m k) k = false := by
  rw [Bool.eq_false_iff]
  intro hk
  exact (mem_mapKeys_mapDelete m k k ((mapHas_iff _ _).1 hk)).2 rfl

/-! ## Claims -/

/-- Claim C1: in every reachable server state the host slot is either
empty or holds exactly one connection identifier, so at most one
connection identifier is the active host at any instant. -/
theorem C1_at_most_one_host (s : ServerState) (_hr : Reach s) :
    s.hostSocketId = none ∨
      ∃ hid : String, s.hostSocketId = some hid ∧
        ∀ x : String, s.hostSocketId = some x → x = hid := by
  cases hs : s.hostSocketId with
  | none => exact Or.inl rfl
  | some hid =>
      refine Or.inr ⟨hid, rfl, ?_⟩
      intro x hx
      exact (Option.some_inj.1 hx).symm

theorem C1_at_most_one_host_witness :
    initState.hostSocketId = none ∨
      ∃ hid : String, initState.hostSocketId = some hid ∧
        ∀ x : String, initState.hostSocketId = some x → x = hid :=
  C1_at_most_one_host initState Reach.init

/-- Claim C2, counterexample: with host `A` registered and viewer `V`
present, `register-host` from `B` leaves the viewer set intact and emits
no `host-left` to `V`, contrary to the claim that every viewer present
receives `host-left` and the ViewerSet becomes empty. -/
theorem C2_counterexample :
    (step 1 { connected := ["A", "B", "V"], hostSocketId := some "A",
              viewers := [("V", 0)], viewerStats := [], sessions := [] }
        (Event.registerHost "B")).1.viewers = [("V", 0)] ∧
    Emit.toSocket "V" Msg.hostLeft ∉
      (step 1 { connected := ["A", "B", "V"], hostSocketId := some "A",
                viewers := [("V", 0)], viewerStats := [], sessions := [] }
          (Event.registerHost "B")).2 := by
  decide

/-- Claim C2 as amended: `register-host` from `B` unconditionally makes
`B` the current host without raising an error and broadcasts a stats
snapshot, but the ViewerSet is preserved unchanged and no `host-left` is
emitted — the viewers simply remain tracked under the new host. -/
theorem C2_registerHost_overwrites (now : Nat) (s : ServerState)
    (B : String) :
    step now s (Event.registerHost B) =
      ({ s with hostSocketId := some B },
       [Emit.toSocket B Msg.hostConfirmed,
        Emit.broadcast
          (Msg.stats s.viewers.length true (mapKeys s.viewers))]) := by
  simp [step, handleRegisterHost, broadcastStats]

/-- Claim C3, counterexample: a second `viewer-join` from a viewer `V`
already in the ViewerSet leaves the set's size at 1, so the stats
broadcast does not report `viewerCount` incremented by one (1 ≠ 1 + 1). -/
theorem C3_counterexample :
    (step 9 { connected := ["A", "V"], hostSocketId := some "A",
              viewers := [("V", 5)], viewerStats := [], sessions := [] }
        (Event.viewerJoin "V")).2 =
      [Emit.toSocket "A" (Msg.viewerJoined "V"),
       Emit.broadcast (Msg.stats 1 true ["V"])] ∧ (1 : Nat) ≠ 1 + 1 := by
  decide

/-- Claim C3 as amended: on `viewer-join` from `V` with no host, `V` gets
`no-host` and the whole state is unchanged; with host `A` registered and
`V` not already tracked, the ViewerSet gains exactly the entry `V`,
exactly one `viewer-joined{viewerId:V}` is emitted to `A`, and a stats
broadcast reports `viewerCount` incremented by one.  (If `V` is already
tracked, only its timestamp is refreshed and the count stays the same.) -/
theorem C3_viewerJoin (now : Nat) (s : ServerState) (V A : String) :
    (s.hostSocketId = none →
       step now s (Event.viewerJoin V) = (s, [Emit.toSocket V Msg.noHost])) ∧
    (s.hostSocketId = some A → mapHas s.viewers V = false →
       step now s (Event.viewerJoin V) =
         ({ s with viewers := s.viewers ++ [(V, now)] },
          [Emit.toSocket A (Msg.viewerJoined V),
           Emit.broadcast (Msg.stats (s.viewers.length + 1) true
             (mapKeys s.viewers ++ [V]))])) := by
  constructor
  · intro h
    simp [step, handleViewerJoin, h]
  · intro h hV
    simp only [step, handleViewerJoin, h]
    rw [mapSet_of_not_has _ _ _ hV]
    simp [broadcastStats, mapKeys]

theorem C3_viewerJoin_witness :
    (step 7 { connected := ["V"], hostSocketId := none, viewers := [],
              viewerStats := [], sessions := [] }
        (Event.viewerJoin "V") =
      ({ connected := ["V"], hostSocketId := none, viewers := [],
         viewerStats := [], sessions := [] },
       [Emit.toSocket "V" Msg.noHost])) ∧
    (step 7 { connected := ["A", "V"], hostSocketId := some "A",
              viewers := [], viewerStats := [], sessions := [] }
        (Event.viewerJoin "V") =
      ({ connected := ["A", "V"], hostSocketId := some "A",
         viewers := [("V", 7)], viewerStats := [], sessions := [] },
       [Emit.toSocket "A" (Msg.viewerJoined "V"),
        Emit.broadcast (Msg.stats 1 true ["V"])])) := by
  constructor
  · exact (C3_viewerJoin 7 _ "V" "A").1 rfl
  · have h := (C3_viewerJoin 7
      { connected := ["A", "V"], hostSocketId := some "A",
        viewers := [], viewerStats := [], sessions := [] } "V" "A").2
      rfl (by decide)
    simpa using h

/-- Claim C4, counterexample: a transport disconnect of an untracked
connection (`"X"` is neither host nor viewer) is not a no-op — the
session variant's handler still publishes a stats broadcast after the
if/else. -/
theorem C4_counterexample :
    (step 0 { connected := ["X", "Y"], hostSocketId := none, viewers := [],
              viewerStats := [], sessions := [] }
        (Event.disconnect "X")).2 =
      [Emit.broadcast (Msg.stats 0 false [])] ∧
    (step 0 { connected := ["X", "Y"], hostSocketId := none, viewers := [],
              viewerStats := [], sessions := [] }
        (Event.disconnect "X")).2 ≠ [] := by
  decide

/-- Claim C4 as amended: on a transport disconnect of `sid`: if `sid` is
the host, the slot is cleared, `host-left` is emitted to every entry of
the ViewerSet, both viewer maps are cleared, and a stats broadcast of the
new empty snapshot follows; if `sid` is a tracked viewer it is removed
(with its per-viewer stats) and the host, if present, gets
`viewer-left{viewerId:sid}`, followed by a stats broadcast; if `sid` is
untracked the registry is unchanged but — unlike the claim's no-op — a
stats broadcast of the unchanged snapshot is still published. -/
theorem C4_disconnect (now : Nat) (s : ServerState) (sid : String) :
    (s.hostSocketId = some sid →
       step now s (Event.disconnect sid) =
         ({ s with connected := s.connected.filter (fun c => ¬ c = sid),
                   hostSocketId := none, viewers := [], viewerStats := [] },
          (mapKeys s.viewers).map
              (fun vid => Emit.toSocket vid Msg.hostLeft) ++
            [Emit.broadcast (Msg.stats 0 false [])])) ∧
    (¬ s.hostSocketId = some sid → mapHas s.viewers sid = true →
       step now s (Event.disconnect sid) =
         ({ s with connected := s.connected.filter (fun c => ¬ c = sid),
                   viewers := mapDelete s.viewers sid,
                   viewerStats := mapDelete s.viewerStats sid },
          (match s.hostSocketId with
           | some h => [Emit.toSocket h (Msg.viewerLeft sid)]
           | none => []) ++
            [Emit.broadcast
              (Msg.stats (mapDelete s.viewers sid).length
                s.hostSocketId.isSome (mapKeys (mapDelete s.viewers sid)))])) ∧
    (¬ s.hostSocketId = some sid → mapHas s.viewers sid = false →
       step now s (Event.disconnect sid) =
         ({ s with connected := s.connected.filter (fun c => ¬ c = sid) },
          [Emit.broadcast
            (Msg.stats s.viewers.length s.hostSocketId.isSome
              (mapKeys s.viewers))])) := by
  refine ⟨?_, ?_, ?_⟩
  · intro h1
    simp only [step]
    unfold handleDisconnect
    rw [if_pos h1]
    simp [broadcastStats, mapKeys]
  · intro h1 h2
    simp only [step]
    unfold handleDisconnect
    rw [if_neg h1, if_pos h2]
    simp [broadcastStats]
  · intro h1 h2
    simp only [step]
    unfold handleDisconnect
    rw [if_neg h1, if_neg (by simp [h2])]
    simp [broadcastStats]

theorem C4_disconnect_witness :
    (step 0 { connected := ["A", "V"], hostSocketId := some "A",
              viewers := [("V", 2)], viewerStats := [], sessions := [] }
        (Event.disconnect "A") =
      ({ connected := ["V"], hostSocketId := none, viewers := [],
         viewerStats := [], sessions := [] },
       [Emit.toSocket "V" Msg.hostLeft,
        Emit.broadcast (Msg.stats 0 false [])])) ∧
    (step 0 { connected := ["A", "V"], hostSocketId := some "A",
              viewers := [("V", 2)], viewerStats := [("V", ("p", 3))],
              sessions := [] }
        (Event.disconnect "V") =
      ({ connected := ["A"], hostSocketId := some "A", viewers := [],
         viewerStats := [], sessions := [] },
       [Emit.toSocket "A" (Msg.viewerLeft "V"),
        Emit.broadcast (Msg.stats 0 true [])])) ∧
    (step 0 { connected := ["X", "Y"], hostSocketId := none, viewers := [],
              viewerStats := [], sessions := [] }
        (Event.disconnect "Y") =
      ({ connected := ["X"], hostSocketId := none, viewers := [],
         viewerStats := [], sessions := [] },
       [Emit.broadcast (Msg.stats 0 false [])])) := by
  refine ⟨?_, ?_, ?_⟩
  · exact ((C4_disconnect 0 _ "A").1 rfl).trans (by decide)
  · exact ((C4_disconnect 0 _ "V").2.1 (by decide) (by decide)).trans
      (by decide)
  · exact ((C4_disconnect 0 _ "Y").2.2 (by decide) (by decide)).trans
      (by decide)

theorem broadcast_delivered (conn : List String) (emits : List Emit)
    (m : Msg) (c : String) (h1 : Emit.broadcast m ∈ emits)
    (h2 : c ∈ conn) : m ∈ deliveredTo conn emits c := by
  unfold deliveredTo
  rw [List.mem_filterMap]
  exact ⟨Emit.broadcast m, h1, by simp [h2]⟩

/-- Claim C5: every stats message any step broadcasts carries
`viewerCount = |ViewerSet|`, `hostPresent = (HostSlot ≠ null)` and
`viewerIds = keys(ViewerSet)` of the state at the moment of the
broadcast (the post-mutation state — `broadcastStats` always runs after
the handler's mutations), and it is delivered to every connected party. -/
theorem C5_stats_snapshot (now : Nat) (s : ServerState) (e : Event)
    (vc : Nat) (hp : Bool) (vids : List String)
    (hmem : Emit.broadcast (Msg.stats vc hp vids) ∈ (step now s e).2) :
    vc = (step now s e).1.viewers.length ∧
    hp = (step now s e).1.hostSocketId.isSome ∧
    vids = mapKeys (step now s e).1.viewers ∧
    ∀ c ∈ (step now s e).1.connected,
      Msg.stats vc hp vids ∈
        deliveredTo (step now s e).1.connected (step now s e).2 c := by
  have main : vc = (step now s e).1.viewers.length ∧
      hp = (step now s e).1.hostSocketId.isSome ∧
      vids = mapKeys (step now s e).1.viewers := by
    cases e with
    | connect sid => simp [step] at hmem
    | registerHost sid =>
        simp [step, handleRegisterHost, broadcastStats] at hmem ⊢
        exact hmem
    | announceStreaming sid =>
        simp only [step] at hmem
        unfold handleAnnounceStreaming at hmem
        split at hmem <;> simp at hmem
    | hostStoppedStreaming sid =>
        simp only [step] at hmem
        unfold handleHostStoppedStreaming at hmem
        split at hmem <;> simp at hmem
    | viewerJoin sid =>
        simp only [step] at hmem ⊢
        unfold handleViewerJoin at hmem ⊢
        cases hs : s.hostSocketId with
        | none => rw [hs] at hmem; simp at hmem
        | some h =>
            rw [hs] at hmem
            simp [broadcastStats] at hmem ⊢
            exact hmem
    | webrtcOffer sid viewerId sdp =>
        simp [step, handleWebrtcOffer] at hmem
    | webrtcAnswer sid hostId sdp =>
        simp [step, handleWebrtcAnswer] at hmem
    | webrtcIceCandidate sid targetId candidate =>
        simp only [step] at hmem
        unfold handleWebrtcIceCandidate at hmem
        split at hmem <;> simp at hmem
    | listenerStats sid payload =>
        simp only [step] at hmem
        unfold handleListenerStats at hmem
        cases hs : s.hostSocketId with
        | none => rw [hs] at hmem; simp at hmem
        | some h => rw [hs] at hmem; simp at hmem
    | disconnectViewer sid viewerId =>
        simp only [step] at hmem
        unfold handleDisconnectViewer at hmem
        split at hmem <;> simp at hmem
    | disconnect sid =>
        simp only [step] at hmem ⊢
        unfold handleDisconnect at hmem ⊢
        by_cases h1 : s.hostSocketId = some sid
        · rw [if_pos h1] at hmem ⊢
          simp [broadcastStats, mapKeys] at hmem ⊢
          exact hmem
        · rw [if_neg h1] at hmem ⊢
          by_cases h2 : mapHas s.viewers sid = true
          · rw [if_pos h2] at hmem ⊢
            cases hs : s.hostSocketId with
            | none =>
                rw [hs] at hmem
                simp [broadcastStats] at hmem ⊢
                exact hmem
            | some h =>
                rw [hs] at hmem
                simp [broadcastStats] at hmem ⊢
                exact hmem
          · rw [if_neg h2] at hmem ⊢
            simp [broadcastStats] at hmem ⊢
            exact hmem
  exact ⟨main.1, main.2.1, main.2.2,
    fun c hc => broadcast_delivered _ _ _ _ hmem hc⟩

theorem C5_stats_snapshot_witness :
    (0 : Nat) =
      (step 1 { connected := ["A"], hostSocketId := none, viewers := [],
                viewerStats := [], sessions := [] }
          (Event.registerHost "A")).1.viewers.length ∧
    true =
      (step 1 { connected := ["A"], hostSocketId := none, viewers := [],
                viewerStats := [], sessions := [] }
          (Event.registerHost "A")).1.hostSocketId.isSome ∧
    ([] : List String) =
      mapKeys (step 1 { connected := ["A"], hostSocketId := none,
                        viewers := [], viewerStats := [], sessions := [] }
          (Event.registerHost "A")).1.viewers ∧
    ∀ c ∈ (step 1 { connected := ["A"], hostSocketId := none,
                    viewers := [], viewerStats := [], sessions := [] }
        (Event.registerHost "A")).1.connected,
      Msg.stats 0 true [] ∈
        deliveredTo
          (step 1 { connected := ["A"], hostSocketId := none,
                    viewers := [], viewerStats := [], sessions := [] }
              (Event.registerHost "A")).1.connected
          (step 1 { connected := ["A"], hostSocketId := none,
                    viewers := [], viewerStats := [], sessions := [] }
              (Event.registerHost "A")).2 c :=
  C5_stats_snapshot 1 _ (Event.registerHost "A") 0 true [] (by decide)

theorem toSocket_dead_not_delivered (conn : List String) (t : String)
    (m : Msg) (c : String) (ht : t ∉ conn) :
    deliveredTo conn [Emit.toSocket t m] c = [] := by
  have hnone : ¬ (t = c ∧ c ∈ conn) := by
    rintro ⟨h1, h2⟩
    exact ht (h1 ▸ h2)
  simp [deliveredTo, hnone]

theorem toSocket_live_delivered (conn : List String) (t : String)
    (m : Msg) (ht : t ∈ conn) :
    deliveredTo conn [Emit.toSocket t m] t = [m] := by
  simp [deliveredTo, ht]

theorem toSocket_other_not_delivered (conn : List String) (t : String)
    (m : Msg) (c : String) (hc : ¬ c = t) :
    deliveredTo conn [Emit.toSocket t m] c = [] := by
  have hnone : ¬ (t = c ∧ c ∈ conn) := by
    rintro ⟨h1, h2⟩
    exact hc h1.symm
  simp [deliveredTo, hnone]

/-- Claim C6: an offer, answer, or ICE-candidate relay whose target `t`
is not a live connection completes without error (the handlers are total
functions), leaves the whole registry state unchanged, and delivers no
message to any party — the emission toward the dead room is the entire
effect, with no queue or retry in the model. -/
theorem C6_relay_dead_target (now : Nat) (s : ServerState)
    (sid t sdp candidate : String) (ht : t ∉ s.connected) :
    (step now s (Event.webrtcOffer sid t sdp)).1 = s ∧
    (∀ c : String,
       deliveredTo s.connected
         (step now s (Event.webrtcOffer sid t sdp)).2 c = []) ∧
    (step now s (Event.webrtcAnswer sid t sdp)).1 = s ∧
    (∀ c : String,
       deliveredTo s.connected
         (step now s (Event.webrtcAnswer sid t sdp)).2 c = []) ∧
    (step now s (Event.webrtcIceCandidate sid t candidate)).1 = s ∧
    (∀ c : String,
       deliveredTo s.connected
         (step now s (Event.webrtcIceCandidate sid t candidate)).2 c = []) := by
  refine ⟨rfl, ?_, rfl, ?_, handleWebrtcIceCandidate_fst s sid t candidate, ?_⟩
  · intro c
    exact toSocket_dead_not_delivered _ _ _ _ ht
  · intro c
    exact toSocket_dead_not_delivered _ _ _ _ ht
  · intro c
    simp only [step]
    unfold handleWebrtcIceCandidate
    by_cases he : t = ""
    · rw [if_pos he]
      simp [deliveredTo]
    · rw [if_neg he]
      exact toSocket_dead_not_delivered _ _ _ _ ht

theorem C6_relay_dead_target_witness :
    (step 0 { connected := ["A"], hostSocketId := some "A", viewers := [],
              viewerStats := [], sessions := [] }
        (Event.webrtcOffer "A" "Z" "sdpX")).1 =
      { connected := ["A"], hostSocketId := some "A", viewers := [],
        viewerStats := [], sessions := [] } ∧
    deliveredTo ["A"]
      (step 0 { connected := ["A"], hostSocketId := some "A",
                viewers := [], viewerStats := [], sessions := [] }
          (Event.webrtcOffer "A" "Z" "sdpX")).2 "A" = [] ∧
    deliveredTo ["A"]
      (step 0 { connected := ["A"], hostSocketId := some "A",
                viewers := [], viewerStats := [], sessions := [] }
          (Event.webrtcAnswer "A" "Z" "sdpY")).2 "Z" = [] ∧
    deliveredTo ["A"]
      (step 0 { connected := ["A"], hostSocketId := some "A",
                viewers := [], viewerStats := [], sessions := [] }
          (Event.webrtcIceCandidate "A" "Z" "cand")).2 "A" = [] := by
  have h := C6_relay_dead_target 0
    { connected := ["A"], hostSocketId := some "A", viewers := [],
      viewerStats := [], sessions := [] } "A" "Z" "sdpX" "cand" (by decide)
  have h2 := C6_relay_dead_target 0
    { connected := ["A"], hostSocketId := some "A", viewers := [],
      viewerStats := [], sessions := [] } "A" "Z" "sdpY" "cand" (by decide)
  exact ⟨h.1, h.2.1 "A", h2.2.2.2.1 "Z", h.2.2.2.2.2 "A"⟩

/-- Claim C7: a relay delivered to a live target hands over the `sdp` /
`candidate` payload exactly as sent, tagged only with the sender's id
(`hostId` for offers, `viewerId` for answers, `from` for candidates),
and nobody else receives anything. -/
theorem C7_relay_content_preserving (now : Nat) (s : ServerState)
    (sid t sdp candidate : String) (ht : t ∈ s.connected)
    (hne : ¬ t = "") :
    deliveredTo s.connected (step now s (Event.webrtcOffer sid t sdp)).2 t =
      [Msg.webrtcOffer sdp sid] ∧
    (∀ c : String, ¬ c = t →
       deliveredTo s.connected
         (step now s (Event.webrtcOffer sid t sdp)).2 c = []) ∧
    deliveredTo s.connected (step now s (Event.webrtcAnswer sid t sdp)).2 t =
      [Msg.webrtcAnswer sdp sid] ∧
    (∀ c : String, ¬ c = t →
       deliveredTo s.connected
         (step now s (Event.webrtcAnswer sid t sdp)).2 c = []) ∧
    deliveredTo s.connected
        (step now s (Event.webrtcIceCandidate sid t candidate)).2 t =
      [Msg.webrtcIceCandidate candidate sid] ∧
    (∀ c : String, ¬ c = t →
       deliveredTo s.connected
         (step now s (Event.webrtcIceCandidate sid t candidate)).2 c = []) := by
  have hice : (step now s (Event.webrtcIceCandidate sid t candidate)).2 =
      [Emit.toSocket t (Msg.webrtcIceCandidate candidate sid)] := by
    simp only [step]
    unfold handleWebrtcIceCandidate
    rw [if_neg hne]
  refine ⟨toSocket_live_delivered _ _ _ ht, ?_,
    toSocket_live_delivered _ _ _ ht, ?_, ?_, ?_⟩
  · intro c hc
    exact toSocket_other_not_delivered _ _ _ _ hc
  · intro c hc
    exact toSocket_other_not_delivered _ _ _ _ hc
  · rw [hice]
    exact toSocket_live_delivered _ _ _ ht
  · intro c hc
    rw [hice]
    exact toSocket_other_not_delivered _ _ _ _ hc

theorem C7_relay_content_preserving_witness :
    deliveredTo ["A", "V"]
      (step 0 { connected := ["A", "V"], hostSocketId := some "A",
                viewers := [("V", 0)], viewerStats := [], sessions := [] }
          (Event.webrtcOffer "A" "V" "sdpX")).2 "V" =
      [Msg.webrtcOffer "sdpX" "A"] ∧
    deliveredTo ["A", "V"]
      (step 0 { connected := ["A", "V"], hostSocketId := some "A",
                viewers := [("V", 0)], viewerStats := [], sessions := [] }
          (Event.webrtcOffer "A" "V" "sdpX")).2 "A" = [] ∧
    deliveredTo ["A", "V"]
      (step 0 { connected := ["A", "V"], hostSocketId := some "A",
                viewers := [("V", 0)], viewerStats := [], sessions := [] }
          (Event.webrtcAnswer "V" "V" "sdpY")).2 "V" =
      [Msg.webrtcAnswer "sdpY" "V"] ∧
    deliveredTo ["A", "V"]
      (step 0 { connected := ["A", "V"], hostSocketId := some "A",
                viewers := [("V", 0)], viewerStats := [], sessions := [] }
          (Event.webrtcIceCandidate "A" "V" "cand")).2 "V" =
      [Msg.webrtcIceCandidate "cand" "A"] := by
  have h := C7_relay_content_preserving 0
    { connected := ["A", "V"], hostSocketId := some "A",
      viewers := [("V", 0)], viewerStats := [], sessions := [] }
    "A" "V" "sdpX" "cand" (by decide) (by decide)
  have h2 := C7_relay_content_preserving 0
    { connected := ["A", "V"], hostSocketId := some "A",
      viewers := [("V", 0)], viewerStats := [], sessions := [] }
    "V" "V" "sdpY" "cand" (by decide) (by decide)
  exact ⟨h.1, h.2.1 "A" (by decide), h2.2.2.1, h.2.2.2.2.1⟩

/-- Claim C8, counterexample: with host `A` and viewer `V`, an
`announce-streaming` from `A` delivers only `host-streaming` to `V`; the
`viewer-joined{viewerId:V}` re-notification goes to the HOST `A`, not to
the viewer, contrary to the claim that every current viewer is
re-notified with `viewer-joined`. -/
theorem C8_counterexample :
    Msg.viewerJoined "V" ∉
      deliveredTo ["A", "V"]
        (step 0 { connected := ["A", "V"], hostSocketId := some "A",
                  viewers := [("V", 0)], viewerStats := [], sessions := [] }
            (Event.announceStreaming "A")).2 "V" ∧
    Msg.viewerJoined "V" ∈
      deliveredTo ["A", "V"]
        (step 0 { connected := ["A", "V"], hostSocketId := some "A",
                  viewers := [("V", 0)], viewerStats := [], sessions := [] }
            (Event.announceStreaming "A")).2 "A" ∧
    Msg.hostStreaming ∈
      deliveredTo ["A", "V"]
        (step 0 { connected := ["A", "V"], hostSocketId := some "A",
                  viewers := [("V", 0)], viewerStats := [], sessions := [] }
            (Event.announceStreaming "A")).2 "V" := by
  decide

/-- Claim C8 as amended: `announce-streaming` has an effect only when the
sender is the current host (otherwise nothing is mutated or emitted);
when it is, the state is unchanged, the HOST receives one
`viewer-joined{viewerId:v}` per current viewer `v` (prompting it to
regenerate an offer for each), and `host-streaming` is broadcast
globally. -/
theorem C8_announceStreaming (now : Nat) (s : ServerState) (sid : String) :
    (¬ s.hostSocketId = some sid →
       step now s (Event.announceStreaming sid) = (s, [])) ∧
    (s.hostSocketId = some sid →
       step now s (Event.announceStreaming sid) =
         (s, (mapKeys s.viewers).map
               (fun vid => Emit.toSocket sid (Msg.viewerJoined vid)) ++
             [Emit.broadcast Msg.hostStreaming])) := by
  constructor
  · intro h
    simp [step, handleAnnounceStreaming, h]
  · intro h
    simp [step, handleAnnounceStreaming, h]

theorem C8_announceStreaming_witness :
    (step 0 { connected := ["A", "V", "W"], hostSocketId := some "A",
              viewers := [("V", 0)], viewerStats := [], sessions := [] }
        (Event.announceStreaming "W") =
      ({ connected := ["A", "V", "W"], hostSocketId := some "A",
         viewers := [("V", 0)], viewerStats := [], sessions := [] },
       [])) ∧
    (step 0 { connected := ["A", "V", "W"], hostSocketId := some "A",
              viewers := [("V", 0)], viewerStats := [], sessions := [] }
        (Event.announceStreaming "A") =
      ({ connected := ["A", "V", "W"], hostSocketId := some "A",
         viewers := [("V", 0)], viewerStats := [], sessions := [] },
       [Emit.toSocket "A" (Msg.viewerJoined "V"),
        Emit.broadcast Msg.hostStreaming])) := by
  constructor
  · exact (C8_announceStreaming 0 _ "W").1 (by decide)
  · exact ((C8_announceStreaming 0 _ "A").2 rfl).trans (by decide)

/-- Claim C9, counterexample: a non-loopback request presenting session
token `"s"`, whose record has role=host but `createdAt = 0`, is SERVED at
`now = SESSION_MAX_AGE + 1` — the gate never checks the record's age, so
an expired-but-not-yet-swept session still grants access, contrary to
the claim that only records younger than the maximum age are honoured. -/
theorem C9_counterexample :
    requireHostAccess
      { ip := "203.0.113.5", hostname := "example.com",
        querySession := some "s", headerSession := none }
      [("s", { role := "host", createdAt := 0 })] = HostPage.serve ∧
    SESSION_MAX_AGE + 1 - 0 > SESSION_MAX_AGE := by
  constructor
  · rfl
  · decide

/-- Claim C9 as amended: a host-page request is served if its origin is
loopback; otherwise it is served iff the supplied session token is
truthy and resolves in the store to a record with role=host (any other
request — no token, an empty token, an unknown token, or a token whose
record has a different role — is redirected to the viewer surface), and
the gate performs no age check.  Expiry is enforced only by the periodic
sweep: once the sweep has removed the (expired) records, the next
non-loopback request is redirected. -/
theorem C9_access_gate (r : HttpReq) (ss : List (String × SessionRec))
    (sid : String) (now : Nat) (sr : SessionRec) :
    (isLocalhost r = true → requireHostAccess r ss = HostPage.serve) ∧
    (isLocalhost r = false → reqSessionId r = some sid → ¬ sid = "" →
       mapGet ss sid = some sr → sr.role = "host" →
       requireHostAccess r ss = HostPage.serve) ∧
    (isLocalhost r = false → reqSessionId r = none →
       requireHostAccess r ss = HostPage.redirectListen) ∧
    (isLocalhost r = false → reqSessionId r = some sid →
       mapGet ss sid = none →
       requireHostAccess r ss = HostPage.redirectListen) ∧
    (isLocalhost r = false → reqSessionId r = some sid →
       mapGet ss sid = some sr → ¬ sr.role = "host" →
       requireHostAccess r ss = HostPage.redirectListen) ∧
    (isLocalhost r = false → reqSessionId r = some "" →
       requireHostAccess r ss = HostPage.redirectListen) ∧
    ((∀ p ∈ ss, now - p.2.createdAt > SESSION_MAX_AGE) →
       isLocalhost r = false →
       requireHostAccess r (sweepSessions now ss) =
         HostPage.redirectListen) ∧
    (isLocalhost r = false →
       (requireHostAccess r ss = HostPage.serve ↔
         ∃ (t : String) (q : SessionRec), reqSessionId r = some t ∧
           ¬ t = "" ∧ mapGet ss t = some q ∧ q.role = "host")) := by
  refine ⟨?_, ?_, ?_, ?_, ?_, ?_, ?_, ?_⟩
  · intro h1
    simp [requireHostAccess, h1]
  · intro h1 h2 h3 h4 h5
    simp [requireHostAccess, h1, h2, h3, h4, h5]
  · intro h1 h2
    simp [requireHostAccess, h1, h2]
  · intro h1 h2 h3
    simp [requireHostAccess, h1, h2, h3]
  · intro h1 h2 h3 h4
    by_cases he : sid = ""
    · simp [requireHostAccess, h1, h2, he]
    · simp [requireHostAccess, h1, h2, he, h3, h4]
  · intro h1 h2
    simp [requireHostAccess, h1, h2]
  · intro hall h1
    have hsw : sweepSessions now ss = [] := by
      unfold sweepSessions
      rw [List.filter_eq_nil_iff]
      intro p hp
      simp [hall p hp]
    rw [hsw]
    cases hq : reqSessionId r with
    | none => simp [requireHostAccess, h1, hq]
    | some t => simp [requireHostAccess, h1, hq, mapGet]
  · intro h1
    cases hq : reqSessionId r with
    | none => simp [requireHostAccess, h1, hq]
    | some t =>
        by_cases ht : t = ""
        · simp [requireHostAccess, h1, hq, ht]
        · cases hm : mapGet ss t with
          | none => simp [requireHostAccess, h1, hq, ht, hm]
          | some q2 =>
              by_cases hrole : q2.role = "host"
              · simp [requireHostAccess, h1, hq, ht, hm, hrole]
              · simp [requireHostAccess, h1, hq, ht, hm, hrole]

theorem C9_access_gate_witness :
    requireHostAccess
      { ip := "127.0.0.1", hostname := "myhost",
        querySession := none, headerSession := none } [] =
      HostPage.serve ∧
    requireHostAccess
      { ip := "203.0.113.5", hostname := "example.com",
        querySession := some "s", headerSession := none }
      [("s", { role := "host", createdAt := 0 })] = HostPage.serve ∧
    requireHostAccess
      { ip := "203.0.113.5", hostname := "example.com",
        querySession := none, headerSession := none }
      [("s", { role := "host", createdAt := 0 })] =
      HostPage.redirectListen ∧
    requireHostAccess
      { ip := "203.0.113.5", hostname := "example.com",
        querySession := some "t", headerSession := none }
      [("s", { role := "host", createdAt := 0 })] =
      HostPage.redirectListen ∧
    requireHostAccess
      { ip := "203.0.113.5", hostname := "example.com",
        querySession := some "s", headerSession := none }
      [("s", { role := "listener", createdAt := 0 })] =
      HostPage.redirectListen ∧
    requireHostAccess
      { ip := "203.0.113.5", hostname := "example.com",
        querySession := none, headerSession := some "" }
      [("s", { role := "host", createdAt := 0 })] =
      HostPage.redirectListen ∧
    requireHostAccess
      { ip := "203.0.113.5", hostname := "example.com",
        querySession := some "s", headerSession := none }
      (sweepSessions (SESSION_MAX_AGE + 1)
        [("s", { role := "host", createdAt := 0 })]) =
      HostPage.redirectListen ∧
    (requireHostAccess
        { ip := "203.0.113.5", hostname := "example.com",
          querySession := some "s", headerSession := none }
        [("s", { role := "host", createdAt := 0 })] = HostPage.serve ↔
      ∃ (t : String) (q : SessionRec),
        reqSessionId
            { ip := "203.0.113.5", hostname := "example.com",
              querySession := some "s", headerSession := none } =
          some t ∧
        ¬ t = "" ∧
        mapGet [("s", { role := "host", createdAt := 0 })] t = some q ∧
        q.role = "host") := by
  refine ⟨?_, ?_, ?_, ?_, ?_, ?_, ?_, ?_⟩
  · exact (C9_access_gate
      { ip := "127.0.0.1", hostname := "myhost",
        querySession := none, headerSession := none }
      [] "s" 0 { role := "host", createdAt := 0 }).1 rfl
  · exact (C9_access_gate
      { ip := "203.0.113.5", hostname := "example.com",
        querySession := some "s", headerSession := none }
      [("s", { role := "host", createdAt := 0 })] "s" 0
      { role := "host", createdAt := 0 }).2.1
      (by decide) rfl (by decide) rfl rfl
  · exact (C9_access_gate
      { ip := "203.0.113.5", hostname := "example.com",
        querySession := none, headerSession := none }
      [("s", { role := "host", createdAt := 0 })] "s" 0
      { role := "host", createdAt := 0 }).2.2.1 (by decide) rfl
  · exact (C9_access_gate
      { ip := "203.0.113.5", hostname := "example.com",
        querySession := some "t", headerSession := none }
      [("s", { role := "host", createdAt := 0 })] "t" 0
      { role := "host", createdAt := 0 }).2.2.2.1
      (by decide) rfl (by decide)
  · exact (C9_access_gate
      { ip := "203.0.113.5", hostname := "example.com",
        querySession := some "s", headerSession := none }
      [("s", { role := "listener", createdAt := 0 })] "s" 0
      { role := "listener", createdAt := 0 }).2.2.2.2.1
      (by decide) rfl rfl (by decide)
  · exact (C9_access_gate
      { ip := "203.0.113.5", hostname := "example.com",
        querySession := none, headerSession := some "" }
      [("s", { role := "host", createdAt := 0 })] "s" 0
      { role := "host", createdAt := 0 }).2.2.2.2.2.1
      (by decide) rfl
  · exact (C9_access_gate
      { ip := "203.0.113.5", hostname := "example.com",
        querySession := some "s", headerSession := none }
      [("s", { role := "host", createdAt := 0 })] "s"
      (SESSION_MAX_AGE + 1) { role := "host", createdAt := 0 }).2.2.2.2.2.2.1
      (by decide) (by decide)
  · exact (C9_access_gate
      { ip := "203.0.113.5", hostname := "example.com",
        querySession := some "s", headerSession := none }
      [("s", { role := "host", createdAt := 0 })] "s" 0
      { role := "host", createdAt := 0 }).2.2.2.2.2.2.2 (by decide)

/-- Claim C10: a `disconnect-viewer{viewerId}` request changes nothing in
the registry (connections, HostSlot, ViewerSet, per-viewer stats and
sessions are all preserved); `disconnect-request` is delivered to
`viewerId` iff `viewerId` is currently in the ViewerSet (viewers of
reachable states are live connections); and the entry is removed only
when that viewer's own transport disconnect later fires. -/
theorem C10_disconnectViewer_frame (now now2 : Nat) (s : ServerState)
    (hr : Reach s) (sid viewerId : String) :
    (step now s (Event.disconnectViewer sid viewerId)).1 = s ∧
    (step now s (Event.disconnectViewer sid viewerId)).2 =
      (if mapHas s.viewers viewerId = true
       then [Emit.toSocket viewerId Msg.disconnectRequest] else []) ∧
    (Msg.disconnectRequest ∈
        deliveredTo s.connected
          (step now s (Event.disconnectViewer sid viewerId)).2 viewerId ↔
      mapHas s.viewers viewerId = true) ∧
    mapHas (step now2 s (Event.disconnect viewerId)).1.viewers viewerId =
      false := by
  refine ⟨handleDisconnectViewer_fst s viewerId, ?_, ?_, ?_⟩
  · by_cases hv : mapHas s.viewers viewerId = true <;>
      simp [step, handleDisconnectViewer, hv]
  · by_cases hv : mapHas s.viewers viewerId = true
    · have hconn : viewerId ∈ s.connected :=
        viewers_subset_connected s hr viewerId ((mapHas_iff _ _).1 hv)
      have hemit : (step now s (Event.disconnectViewer sid viewerId)).2 =
          [Emit.toSocket viewerId Msg.disconnectRequest] := by
        simp [step, handleDisconnectViewer, hv]
      rw [hemit, toSocket_live_delivered _ _ _ hconn]
      simp [hv]
    · have hemit : (step now s (Event.disconnectViewer sid viewerId)).2 =
          [] := by
        simp [step, handleDisconnectViewer, hv]
      rw [hemit]
      simp [deliveredTo, hv]
  · simp only [step]
    unfold handleDisconnect
    by_cases h1 : s.hostSocketId = some viewerId
    · rw [if_pos h1]
      rfl
    · rw [if_neg h1]
      by_cases h2 : mapHas s.viewers viewerId = true
      · rw [if_pos h2]
        exact mapHas_mapDelete_self s.viewers viewerId
      · rw [if_neg h2]
        simpa using h2

theorem C10_disconnectViewer_frame_witness :
    (step 9 { connected := ["A", "V"], hostSocketId := some "A",
              viewers := [("V", 3)], viewerStats := [], sessions := [] }
        (Event.disconnectViewer "A" "V")).1 =
      { connected := ["A", "V"], hostSocketId := some "A",
        viewers := [("V", 3)], viewerStats := [], sessions := [] } ∧
    (step 9 { connected := ["A", "V"], hostSocketId := some "A",
              viewers := [("V", 3)], viewerStats := [], sessions := [] }
        (Event.disconnectViewer "A" "V")).2 =
      (if mapHas
            ({ connected := ["A", "V"], hostSocketId := some "A",
               viewers := [("V", 3)], viewerStats := [],
               sessions := [] } : ServerState).viewers "V" = true
       then [Emit.toSocket "V" Msg.disconnectRequest] else []) ∧
    (Msg.disconnectRequest ∈
        deliveredTo ["A", "V"]
          (step 9 { connected := ["A", "V"], hostSocketId := some "A",
                    viewers := [("V", 3)], viewerStats := [],
                    sessions := [] }
              (Event.disconnectViewer "A" "V")).2 "V" ↔
      mapHas
          ({ connected := ["A", "V"], hostSocketId := some "A",
             viewers := [("V", 3)], viewerStats := [],
             sessions := [] } : ServerState).viewers "V" = true) ∧
    mapHas (step 8 { connected := ["A", "V"], hostSocketId := some "A",
                     viewers := [("V", 3)], viewerStats := [],
                     sessions := [] }
        (Event.disconnect "V")).1.viewers "V" = false := by
  refine C10_disconnectViewer_frame 9 8 _ ?_ "A" "V"
  have h1 : Reach (step 0 initState (Event.connect "A")).1 :=
    Reach.next 0 (Event.connect "A") initState Reach.init (by decide)
  have h2 : Reach (step 1 (step 0 initState (Event.connect "A")).1
      (Event.registerHost "A")).1 :=
    Reach.next 1 (Event.registerHost "A") _ h1 (by decide)
  have h3 : Reach (step 2 (step 1 (step 0 initState
      (Event.connect "A")).1 (Event.registerHost "A")).1
      (Event.connect "V")).1 :=
    Reach.next 2 (Event.connect "V") _ h2 (by decide)
  have h4 := Reach.next 3 (Event.viewerJoin "V") _ h3 (by decide)
  exact h4
